/-
Verification of the mmCIF object-model package (`pdbecif`, file `src/__init__.py`).

The development shallowly embeds the classes `Item`, `Category`, `SaveFrame`,
`DataBlock` and `CifFile` and the helper `_formatVal`.  Python dictionaries are
modelled as association lists (`List (String × _)`) with first-match lookup,
in-place update and append-at-end insertion, which matches `dict` semantics on
the duplicate-free states the code can build.  A raised `AttributeError` or
`IndexError` is modelled by an `Option`-valued function returning `none`.
Python `None` is the constructor `PyVal.pynone`; the class object `str`, the
initial value of `Item.type`, is `PyVal.pyStrClass`.
-/
import Mathlib

set_option autoImplicit false

/-- Dynamic Python values as far as the package manipulates them: `None`,
booleans, integers, strings, lists, dictionaries (string-keyed, as used by
`import_mmcif_data_map`) and the class object `str`. -/
inductive PyVal where
  | pynone
  | pybool (b : Bool)
  | pyint (n : Int)
  | pystr (s : String)
  | pylist (vs : List PyVal)
  | pydict (entries : List (String × PyVal))
  | pyStrClass

/-- Python `isinstance(v, list)`. -/
def pyIsList : PyVal → Bool
  | PyVal.pylist _ => true
  | _ => false

/-- Python `v is not None`. -/
def pyIsNotNone : PyVal → Bool
  | PyVal.pynone => false
  | _ => true

/-- Python `isinstance(v, dict)`. -/
def pyIsDict : PyVal → Bool
  | PyVal.pydict _ => true
  | _ => false

/-- First-match lookup in an association list; the model of `d[k]` /
`d.get(k)` on a Python `dict`. -/
def alookup {α : Type} : List (String × α) → String → Option α
  | [], _ => none
  | e :: rest, k => if e.1 = k then some e.2 else alookup rest k

/-- Membership test; the model of `k in d`. -/
def amem {α : Type} (m : List (String × α)) (k : String) : Bool :=
  (alookup m k).isSome

/-- Update-or-append; the model of `d[k] = v` (an existing key keeps its
position, a new key is appended at the end, as in a Python `dict`). -/
def aset {α : Type} : List (String × α) → String → α → List (String × α)
  | [], k, v => [(k, v)]
  | e :: rest, k, v => if e.1 = k then (k, v) :: rest else e :: aset rest k v

/-- Removal of the entry of a key; the model of `d.pop(k)`
(the popped value itself is read off with `alookup`). -/
def aeraseKey {α : Type} : List (String × α) → String → List (String × α)
  | [], _ => []
  | e :: rest, k => if e.1 = k then rest else e :: aeraseKey rest k

/-- Python `s.lstrip("_")`: drop every leading underscore. -/
def lstripU (s : String) : String :=
  String.mk (s.data.dropWhile (fun c => c = '_'))

/-- The state of an `Item` object.  The back-reference `self.parent` is not a
field; the one effect `setValue` has through it (`self.parent.isTable = True`)
is returned explicitly by `Item.setValueP` below. -/
structure ItemS where
  value : PyVal
  type : PyVal
  mandatory : Bool
  isColumn : Bool
  id : String
  name : String
  lineno : PyVal

/-- Field initialisation of `Item.__init__(item_name, parent)`; the
registration `self.parent.items[self.id] = self` is performed by
`Category.newItem`. -/
def Item.mkInit (item_name : String) : ItemS :=
  { value := PyVal.pynone
    type := PyVal.pyStrClass
    mandatory := false
    isColumn := false
    id := item_name
    name := item_name
    lineno := PyVal.pyint (-1) }

/-- The three-state transition of `Item.setValue(item_value, item_type,
lineno)`.  The state is the pair of the item and the `isTable` flag of the
owning category (the only part of the parent the method touches).  `none`
models the `AttributeError` raised by `self.value.append` / `self.type.append`
/ `self.lineno.append` when the attribute is not a list. -/
def Item.setValueP (st : ItemS × Bool) (item_value item_type lineno : PyVal) :
    Option (ItemS × Bool) :=
  let it := st.1
  match it.value, it.isColumn with
  | PyVal.pynone, false =>
    match item_value with
    | PyVal.pylist [x] => some ({ it with value := x }, st.2)
    | PyVal.pylist (x :: y :: r) =>
        some ({ it with value := PyVal.pylist (x :: y :: r), isColumn := true }, true)
    | _ => some ({ it with value := item_value, type := item_type, lineno := lineno }, st.2)
  | PyVal.pylist vs, true =>
    match it.type, it.lineno with
    | PyVal.pylist ts, PyVal.pylist ls =>
        some ({ it with value := PyVal.pylist (vs ++ [item_value])
                        type := PyVal.pylist (ts ++ [item_type])
                        lineno := PyVal.pylist (ls ++ [lineno]) }, st.2)
    | _, _ => none
  | v, false =>
      some ({ it with value := PyVal.pylist [v, item_value]
                      type := PyVal.pylist [it.type, item_type]
                      lineno := PyVal.pylist [it.lineno, lineno]
                      isColumn := true }, true)
  | _, true => none

/-- `Item.getRawValue`: the unformatted stored value. -/
def Item.getRawValue (it : ItemS) : PyVal :=
  it.value

/-- Iterated `setValue` calls with the default arguments
(`item_type` the string DEFAULTSTRING, `lineno` the integer -1), threading
the `isTable` flag of the owning category. -/
def runSetValues (st : ItemS × Bool) : List PyVal → Option (ItemS × Bool)
  | [] => some st
  | v :: rest =>
    match Item.setValueP st v (PyVal.pystr "DEFAULTSTRING") (PyVal.pyint (-1)) with
    | none => none
    | some st2 => runSetValues st2 rest

/-- The argument of a construct-or-fetch method, classified the way the
duck-typed dispatch does: a string (has `isalnum`), an already built child of
the expected kind (has `id` but no `isalnum`), or an object carrying
neither attribute, such as an integer. -/
inductive SetArg (χ : Type) where
  | name (s : String)
  | child (c : χ)
  | other (n : Int)

/-- The state of a `Category` object (the `parent` back-reference is handled
by the owner-level functions). -/
structure CategoryS where
  items : List (String × ItemS)
  recycleBin : List (String × ItemS)
  isTable : Bool
  id : String
  maxTagLength : Nat

/-- Field initialisation of `Category.__init__(category_id, parent)`
(`self.id = category_id.lstrip("_")`); registration into
`parent.categories[self.id]` is performed by the caller. -/
def Category.mkInit (category_id : String) : CategoryS :=
  { items := []
    recycleBin := []
    isTable := false
    id := lstripU category_id
    maxTagLength := 0 }

/-- `Item(item_name, self)` as evaluated inside `Category.setItem`: build the
item and let its constructor register it in `self.items`. -/
def Category.newItem (c : CategoryS) (item_name : String) : ItemS × CategoryS :=
  let it := Item.mkInit item_name
  (it, { c with items := aset c.items it.id it })

/-- Common tail of `Category.setItem` once `item` is an `Item` object: the
`_maxTagLength` update, the `isTable` promotion for list-valued items, and the
final `self.items.setdefault(item.id, item)`. -/
def Category.setItemObj (c : CategoryS) (it : ItemS) : Option ItemS × CategoryS :=
  let tag := "_" ++ c.id ++ it.id
  let c1 := { c with maxTagLength :=
                if tag.length > c.maxTagLength then tag.length else c.maxTagLength }
  let c2 := if pyIsNotNone it.value && pyIsList it.value && !c1.isTable
            then { c1 with isTable := true } else c1
  match alookup c2.items it.id with
  | some ex => (some ex, c2)
  | none => (some it, { c2 with items := aset c2.items it.id it })

/-- `Category.setItem(item)`.  A string argument is turned into an existing or
freshly registered `Item`; an argument with neither `isalnum` nor `id`
(`SetArg.other`) makes the second `try` return `None` with the category left
unchanged — no exception escapes. -/
def Category.setItem (c : CategoryS) (arg : SetArg ItemS) : Option ItemS × CategoryS :=
  match arg with
  | SetArg.name s =>
    (match alookup c.items s with
     | none =>
         let p := Category.newItem c s
         Category.setItemObj p.2 p.1
     | some it0 => Category.setItemObj c it0)
  | SetArg.child it => Category.setItemObj c it
  | SetArg.other _ => (none, c)

/-- `Category.getItem(item_name)`. -/
def Category.getItem (c : CategoryS) (item_name : String) : Option ItemS :=
  alookup c.items item_name

/-- `Category.getItemNames()`. -/
def Category.getItemNames (c : CategoryS) : List String :=
  c.items.map Prod.fst

/-- `Category.getItems()`. -/
def Category.getItems (c : CategoryS) : List ItemS :=
  c.items.map Prod.snd

/-- `Category.removeChild(child)`: `child` is an `Item` object (matched by its
`id`) or an item name; a hit is popped into `recycleBin`, and the result
reports success as a boolean, never an exception. -/
def Category.removeChild (c : CategoryS) (child : Sum ItemS String) : Bool × CategoryS :=
  match child with
  | Sum.inl it =>
    (match alookup c.items it.id with
     | some v => (true, { c with items := aeraseKey c.items it.id
                                 recycleBin := aset c.recycleBin it.id v })
     | none => (false, c))
  | Sum.inr s =>
    (match alookup c.items s with
     | some v => (true, { c with items := aeraseKey c.items s
                                 recycleBin := aset c.recycleBin s v })
     | none => (false, c))

/-- The state of a `SaveFrame` object. -/
structure SaveFrameS where
  id : String
  categories : List (String × CategoryS)
  recycleBin : List (String × CategoryS)

/-- Field initialisation of `SaveFrame.__init__(saveFrame_id, parent)`. -/
def SaveFrame.mkInit (saveFrame_id : String) : SaveFrameS :=
  { id := saveFrame_id, categories := [], recycleBin := [] }

/-- Final `self.categories.setdefault(category.id, category)` of
`SaveFrame.setCategory`. -/
def SaveFrame.setCatFinish (sf : SaveFrameS) (cat : CategoryS) :
    Option (CategoryS × SaveFrameS) :=
  match alookup sf.categories cat.id with
  | some ex => some (ex, sf)
  | none => some (cat, { sf with categories := aset sf.categories cat.id cat })

/-- `SaveFrame.setCategory(category)`.  `none` models the uncaught
`AttributeError` raised by `category.id` when the argument is neither a string
nor an object with an `id`. -/
def SaveFrame.setCategory (sf : SaveFrameS) (arg : SetArg CategoryS) :
    Option (CategoryS × SaveFrameS) :=
  match arg with
  | SetArg.name s =>
    (match alookup sf.categories (lstripU s) with
     | none =>
         let cat := Category.mkInit (lstripU s)
         let sf1 := { sf with categories := aset sf.categories cat.id cat }
         SaveFrame.setCatFinish sf1 cat
     | some ex => SaveFrame.setCatFinish sf ex)
  | SetArg.child cat => SaveFrame.setCatFinish sf cat
  | SetArg.other _ => none

/-- `SaveFrame.getCategoryIds()`. -/
def SaveFrame.getCategoryIds (sf : SaveFrameS) : List String :=
  sf.categories.map Prod.fst

/-- `SaveFrame.removeChild(child)`. -/
def SaveFrame.removeChild (sf : SaveFrameS) (child : Sum CategoryS String) :
    Bool × SaveFrameS :=
  match child with
  | Sum.inl cat =>
    (match alookup sf.categories cat.id with
     | some v => (true, { sf with categories := aeraseKey sf.categories cat.id
                                  recycleBin := aset sf.recycleBin cat.id v })
     | none => (false, sf))
  | Sum.inr s =>
    (match alookup sf.categories s with
     | some v => (true, { sf with categories := aeraseKey sf.categories s
                                  recycleBin := aset sf.recycleBin s v })
     | none => (false, sf))

/-- A value in the `recycleBin` of a `DataBlock`: removed categories and
removed save frames share the map. -/
inductive DBChild where
  | cat (c : CategoryS)
  | frame (f : SaveFrameS)

/-- The state of a `DataBlock` object. -/
structure DataBlockS where
  id : String
  categories : List (String × CategoryS)
  saveFrames : List (String × SaveFrameS)
  recycleBin : List (String × DBChild)

/-- Field initialisation of `DataBlock.__init__(block_id, parent)`. -/
def DataBlock.mkInit (block_id : String) : DataBlockS :=
  { id := block_id, categories := [], saveFrames := [], recycleBin := [] }

/-- Final `self.categories.setdefault(category.id, category)` of
`DataBlock.setCategory`. -/
def DataBlock.setCatFinish (db : DataBlockS) (cat : CategoryS) :
    Option (CategoryS × DataBlockS) :=
  match alookup db.categories cat.id with
  | some ex => some (ex, db)
  | none => some (cat, { db with categories := aset db.categories cat.id cat })

/-- `DataBlock.setCategory(category)`; `none` models the uncaught
`AttributeError` of `category.id` on an argument with neither `isalnum` nor
`id`. -/
def DataBlock.setCategory (db : DataBlockS) (arg : SetArg CategoryS) :
    Option (CategoryS × DataBlockS) :=
  match arg with
  | SetArg.name s =>
    (match alookup db.categories (lstripU s) with
     | none =>
         let cat := Category.mkInit (lstripU s)
         let db1 := { db with categories := aset db.categories cat.id cat }
         DataBlock.setCatFinish db1 cat
     | some ex => DataBlock.setCatFinish db ex)
  | SetArg.child cat => DataBlock.setCatFinish db cat
  | SetArg.other _ => none

/-- Final `self.saveFrames.setdefault(saveFrame.id, saveFrame)` of
`DataBlock.setSaveFrame`. -/
def DataBlock.setFrameFinish (db : DataBlockS) (f : SaveFrameS) :
    Option (SaveFrameS × DataBlockS) :=
  match alookup db.saveFrames f.id with
  | some ex => some (ex, db)
  | none => some (f, { db with saveFrames := aset db.saveFrames f.id f })

/-- `DataBlock.setSaveFrame(saveFrame)`; `none` models the uncaught
`AttributeError` of `saveFrame.id`. -/
def DataBlock.setSaveFrame (db : DataBlockS) (arg : SetArg SaveFrameS) :
    Option (SaveFrameS × DataBlockS) :=
  match arg with
  | SetArg.name s =>
    (match alookup db.saveFrames s with
     | none =>
         let f := SaveFrame.mkInit s
         let db1 := { db with saveFrames := aset db.saveFrames f.id f }
         DataBlock.setFrameFinish db1 f
     | some ex => DataBlock.setFrameFinish db ex)
  | SetArg.child f => DataBlock.setFrameFinish db f
  | SetArg.other _ => none

/-- `DataBlock.getCategoryIds()`. -/
def DataBlock.getCategoryIds (db : DataBlockS) : List String :=
  db.categories.map Prod.fst

/-- `DataBlock.getSaveFrameIds()`. -/
def DataBlock.getSaveFrameIds (db : DataBlockS) : List String :=
  db.saveFrames.map Prod.fst

/-- The argument of `DataBlock.removeChild`, classified the way the
`isinstance` chain does. -/
inductive DBArg where
  | cat (c : CategoryS)
  | frame (f : SaveFrameS)
  | name (s : String)

/-- `DataBlock.removeChild(child)`: a `Category` object is matched by `id` in
`categories`, a `SaveFrame` object by `id` in `saveFrames`; a string is first
looked up (underscore-stripped) among categories and only failing that,
verbatim, among save frames — the `elif` never removes both. -/
def DataBlock.removeChild (db : DataBlockS) (child : DBArg) : Bool × DataBlockS :=
  match child with
  | DBArg.cat c =>
    (match alookup db.categories c.id with
     | some v => (true, { db with categories := aeraseKey db.categories c.id
                                  recycleBin := aset db.recycleBin c.id (DBChild.cat v) })
     | none => (false, db))
  | DBArg.frame f =>
    (match alookup db.saveFrames f.id with
     | some v => (true, { db with saveFrames := aeraseKey db.saveFrames f.id
                                  recycleBin := aset db.recycleBin f.id (DBChild.frame v) })
     | none => (false, db))
  | DBArg.name s =>
    if amem db.categories (lstripU s) || amem db.saveFrames s then
      match alookup db.categories (lstripU s) with
      | some v =>
          (true, { db with categories := aeraseKey db.categories (lstripU s)
                           recycleBin := aset db.recycleBin (lstripU s) (DBChild.cat v) })
      | none =>
        (match alookup db.saveFrames s with
         | some v =>
             (true, { db with saveFrames := aeraseKey db.saveFrames s
                              recycleBin := aset db.recycleBin s (DBChild.frame v) })
         | none => (false, db))
    else (false, db)

/-- The state of a `CifFile` object. -/
structure CifFileS where
  data_blocks : List (String × DataBlockS)
  recycleBin : List (String × DataBlockS)
  file_path : Option String

/-- Field initialisation of `CifFile.__init__` with no arguments. -/
def CifFile.mkInit : CifFileS :=
  { data_blocks := [], recycleBin := [], file_path := none }

/-- Final `self.data_blocks.setdefault(datablock.id, datablock)` of
`CifFile.setDataBlock`. -/
def CifFile.setBlockFinish (cf : CifFileS) (db : DataBlockS) :
    Option (DataBlockS × CifFileS) :=
  match alookup cf.data_blocks db.id with
  | some ex => some (ex, cf)
  | none => some (db, { cf with data_blocks := aset cf.data_blocks db.id db })

/-- `CifFile.setDataBlock(datablock)`; `none` models the uncaught
`AttributeError` of `datablock.id` on an argument with neither `isalnum` nor
`id`. -/
def CifFile.setDataBlock (cf : CifFileS) (arg : SetArg DataBlockS) :
    Option (DataBlockS × CifFileS) :=
  match arg with
  | SetArg.name s =>
    (match alookup cf.data_blocks s with
     | none =>
         let db := DataBlock.mkInit s
         let cf1 := { cf with data_blocks := aset cf.data_blocks db.id db }
         CifFile.setBlockFinish cf1 db
     | some ex => CifFile.setBlockFinish cf ex)
  | SetArg.child db => CifFile.setBlockFinish cf db
  | SetArg.other _ => none

/-- `CifFile.getDataBlockIds()`. -/
def CifFile.getDataBlockIds (cf : CifFileS) : List String :=
  cf.data_blocks.map Prod.fst

/-- `CifFile.removeChild(child)`. -/
def CifFile.removeChild (cf : CifFileS) (child : Sum DataBlockS String) :
    Bool × CifFileS :=
  match child with
  | Sum.inl db =>
    (match alookup cf.data_blocks db.id with
     | some v => (true, { cf with data_blocks := aeraseKey cf.data_blocks db.id
                                  recycleBin := aset cf.recycleBin db.id v })
     | none => (false, cf))
  | Sum.inr s =>
    (match alookup cf.data_blocks s with
     | some v => (true, { cf with data_blocks := aeraseKey cf.data_blocks s
                                  recycleBin := aset cf.recycleBin s v })
     | none => (false, cf))

/-- The inner item loop of `import_mmcif_data_map`
(`for item, value in items_and_values.items(): category_obj.setItem(item).setValue(value)`),
running inside the `try`.  An `AttributeError` from `setValue` (`none`) is
caught by the surrounding handler: the loop stops and the category state built
so far is kept; the partially mutated item of the failing call itself is not
recorded. -/
def itemsLoop (cat : CategoryS) : List (String × PyVal) → CategoryS
  | [] => cat
  | (nm, v) :: rest =>
    match Category.setItem cat (SetArg.name nm) with
    | (some it, cat1) =>
      (match Item.setValueP (it, cat1.isTable) v (PyVal.pystr "DEFAULTSTRING")
              (PyVal.pyint (-1)) with
       | some (it2, tbl) =>
           itemsLoop { cat1 with items := aset cat1.items it.id it2, isTable := tbl } rest
       | none => cat1)
    | (none, cat1) => cat1

/-- The category loop of `import_mmcif_data_map`.  A category value that is
not a `dict` raises `AttributeError` at `items_and_values.items()`, which the
`try` catches and reports: the branch is skipped and the loop continues. -/
def catsLoop (db : DataBlockS) : List (String × PyVal) → DataBlockS
  | [] => db
  | (cname, cv) :: rest =>
    match DataBlock.setCategory db (SetArg.name cname) with
    | some (cat, db1) =>
      (match cv with
       | PyVal.pydict its =>
           catsLoop { db1 with categories := aset db1.categories cat.id (itemsLoop cat its) } rest
       | _ => catsLoop db1 rest)
    | none => db

/-- The data-block loop of `import_mmcif_data_map`.  A block value that is not
a `dict` raises `AttributeError` at `categories_items_and_values.items()`
outside any `try`: the whole import raises (`none`). -/
def blocksLoop (cf : CifFileS) : List (String × PyVal) → Option CifFileS
  | [] => some cf
  | (bid, bv) :: rest =>
    match CifFile.setDataBlock cf (SetArg.name bid) with
    | some (db, cf1) =>
      (match bv with
       | PyVal.pydict cats =>
           blocksLoop { cf1 with data_blocks := aset cf1.data_blocks db.id (catsLoop db cats) } rest
       | _ => none)
    | none => none

/-- `CifFile.import_mmcif_data_map(mmcif_data_map)`: a non-`dict` or empty
argument is only reported (`"Data import was unsuccessful..."`) and leaves the
file unchanged; otherwise each data-block branch is walked.  `none` models an
uncaught `AttributeError` escaping the call. -/
def CifFile.import_mmcif_data_map (cf : CifFileS) (m : PyVal) : Option CifFileS :=
  match m with
  | PyVal.pydict [] => some cf
  | PyVal.pydict entries => blocksLoop cf entries
  | _ => some cf

/-- The single-quote character (code point 39). -/
def sqc : Char := Char.ofNat 39

/-- The double-quote character (code point 34). -/
def dqc : Char := Char.ofNat 34

/-- The line-break character. -/
def nlc : Char := Char.ofNat 10

/-- Character membership in a character list; the model of Python
`c in val`. -/
def chas (c : Char) : List Char → Bool
  | [] => false
  | x :: r => x == c || chas c r

/-- Python `val.startswith(c)` for a one-character prefix, and
`val[0] == c`. -/
def startsWithC (l : List Char) (c : Char) : Bool :=
  match l with
  | [] => false
  | x :: _ => x == c

/-- Python `"%c%s%c" % (q, val, q)`: wrap in a quote character. -/
def quoteWrap (q : Char) (l : List Char) : List Char :=
  q :: l ++ [q]

/-- Python `val[1:-1]`. -/
def pyInterior (l : List Char) : List Char :=
  (l.drop 1).dropLast

/-- The quoting condition `val.startswith("_") or val.startswith("[") or
(" " in val and "\n" not in val)` used by every branch of `_formatVal`. -/
def pyWrapCond (l : List Char) : Bool :=
  startsWithC l '_' || startsWithC l '[' || (chas ' ' l && !chas nlc l)

/-- `_formatVal(val)` on the character list of the (already stringified)
value.  `none` models the `IndexError` raised by `val[0]` on the empty
string in the final `elif`. -/
def formatCore (l : List Char) : Option (List Char) :=
  let v1 : List Char :=
    if chas sqc l then
      (if pyWrapCond l then (if pyWrapCond l then quoteWrap dqc l else l)
       else quoteWrap dqc l)
    else if chas dqc l then
      (if pyWrapCond l then (if pyWrapCond l then quoteWrap sqc l else l)
       else quoteWrap sqc l)
    else
      (if pyWrapCond l then quoteWrap dqc l else l)
  if chas nlc v1 then
    let v2 := if startsWithC v1 sqc || startsWithC v1 dqc then pyInterior v1 else v1
    some (nlc :: ';' :: v2 ++ [nlc, ';', nlc])
  else
    match v1 with
    | [] => none
    | c :: _ =>
      if (c == sqc || c == dqc) && (chas sqc (pyInterior v1) && chas dqc (pyInterior v1)) then
        some (nlc :: ';' :: pyInterior v1 ++ [nlc, ';', nlc])
      else some v1

/-- `_formatVal(val)` on strings (`val = str(val)` is the identity there). -/
def _formatVal (s : String) : Option String :=
  (formatCore s.data).map (fun l => String.mk l)

/-- The one-character string of a single quote. -/
def sqS : String := String.singleton sqc

/-- The one-character string of a double quote. -/
def dqS : String := String.singleton dqc

/-- A map whose keys are pairwise distinct — every state a Python `dict` can
take, since `dict` keys are unique. -/
def keysNodup {α : Type} (m : List (String × α)) : Prop :=
  (m.map Prod.fst).Nodup

/-- The equal-length column shape: `value`, `type` and `lineno` are lists of
one common length. -/
def eqLenCol (it : ItemS) : Prop :=
  ∃ vs ts ls, it.value = PyVal.pylist vs ∧ it.type = PyVal.pylist ts ∧
    it.lineno = PyVal.pylist ls ∧ ts.length = vs.length ∧ ls.length = vs.length
/-- A category holding one registered item `"a"` whose value is `7`, used by
the claim C4 counterexample and witness. -/
def oldItemC4 : ItemS :=
  { Item.mkInit "a" with value := PyVal.pyint 7 }
/-- The container of `oldItemC4`. -/
def catC4 : CategoryS :=
  { items := [("a", oldItemC4)], recycleBin := [], isTable := false,
    id := "cat", maxTagLength := 0 }
/-- A one-item category used by the claim C5 witness. -/
def itemC5 : ItemS := Item.mkInit "i"
/-- Category registering `itemC5` under `"i"`. -/
def catC5 : CategoryS :=
  { items := [("i", itemC5)], recycleBin := [], isTable := false,
    id := "c", maxTagLength := 0 }
/-- `catC5` after removing `"i"`. -/
def catC5r : CategoryS :=
  { items := [], recycleBin := [("i", itemC5)], isTable := false,
    id := "c", maxTagLength := 0 }
/-- A one-block file used by the claim C5 witness. -/
def dbC5 : DataBlockS := DataBlock.mkInit "B"
/-- File registering `dbC5` under `"B"`. -/
def cifC5 : CifFileS :=
  { data_blocks := [("B", dbC5)], recycleBin := [], file_path := none }
/-- `cifC5` after removing `"B"`. -/
def cifC5r : CifFileS :=
  { data_blocks := [], recycleBin := [("B", dbC5)], file_path := none }
/-- The data block of the claim C10 witness: category `"x"` and save frame
`"x"` both live. -/
def dbC10 : DataBlockS :=
  { id := "B", categories := [("x", Category.mkInit "x")],
    saveFrames := [("x", SaveFrame.mkInit "x")], recycleBin := [] }

theorem alookup_aset_self {α : Type} (m : List (String × α)) (k : String) (v : α) :
    alookup (aset m k v) k = some v := by
  induction m with
  | nil => simp [aset, alookup]
  | cons e rest ih =>
    by_cases h : e.1 = k <;> simp [aset, alookup, h, ih]

theorem alookup_aset_ne {α : Type} (m : List (String × α)) (k k' : String) (v : α)
    (h : k ≠ k') : alookup (aset m k v) k' = alookup m k' := by
  induction m with
  | nil => simp [aset, alookup, h]
  | cons e rest ih =>
    by_cases he : e.1 = k
    · subst he; simp [aset, alookup, h, ih]
    · by_cases he' : e.1 = k' <;> simp [aset, alookup, he, he', ih, Ne.symm h]

theorem amem_aset_self {α : Type} (m : List (String × α)) (k : String) (v : α) :
    amem (aset m k v) k = true := by
  simp [amem, alookup_aset_self]

theorem alookup_eq_none_iff {α : Type} (m : List (String × α)) (k : String) :
    alookup m k = none ↔ k ∉ m.map Prod.fst := by
  induction m with
  | nil => simp [alookup]
  | cons e rest ih =>
    by_cases h : e.1 = k
    · subst h; simp [alookup]
    · simp [alookup, h, ih, Ne.symm h]

theorem alookup_aerase_self {α : Type} (m : List (String × α)) (k : String)
    (h : keysNodup m) : alookup (aeraseKey m k) k = none := by
  induction m with
  | nil => simp [aeraseKey, alookup]
  | cons e rest ih =>
    have hn : keysNodup rest := (List.nodup_cons.mp h).2
    by_cases he : e.1 = k
    · subst he
      have : e.1 ∉ rest.map Prod.fst := (List.nodup_cons.mp h).1
      simpa [aeraseKey, alookup_eq_none_iff] using this
    · simp [aeraseKey, alookup, he, ih hn]

theorem mem_aerase {α : Type} (m : List (String × α)) (k : String) (e : String × α)
    (h : keysNodup m) (he : e ∈ aeraseKey m k) : e ∈ m ∧ e.1 ≠ k := by
  induction m with
  | nil => simp [aeraseKey] at he
  | cons x rest ih =>
    have hx : x.1 ∉ rest.map Prod.fst := (List.nodup_cons.mp h).1
    have hn : keysNodup rest := (List.nodup_cons.mp h).2
    by_cases hxk : x.1 = k
    · subst hxk
      simp only [aeraseKey, if_pos rfl] at he
      refine ⟨List.mem_cons_of_mem _ he, ?_⟩
      intro hek
      exact hx (hek ▸ List.mem_map_of_mem Prod.fst he)
    · simp only [aeraseKey, if_neg hxk] at he
      rcases List.mem_cons.mp he with he | he
      · exact ⟨by simp [he], by simp [he, hxk]⟩
      · obtain ⟨h1, h2⟩ := ih hn he
        exact ⟨List.mem_cons_of_mem _ h1, h2⟩

theorem not_mem_map_fst_aerase {α : Type} (m : List (String × α)) (k : String)
    (h : keysNodup m) : k ∉ (aeraseKey m k).map Prod.fst := by
  rw [← alookup_eq_none_iff]
  exact alookup_aerase_self m k h

theorem natMax_absorb (a b : Nat) :
    (if a > (if a > b then a else b) then a else (if a > b then a else b))
      = (if a > b then a else b) := by
  by_cases h : a > b <;> simp [h]

theorem setItem_idem_name (c : CategoryS) (s : String) :
    Category.setItem (Category.setItem c (SetArg.name s)).2 (SetArg.name s)
      = Category.setItem c (SetArg.name s) := by
  cases h : alookup c.items s with
  | none =>
    simp only [Category.setItem, h, Category.newItem, Category.setItemObj, Item.mkInit,
      alookup_aset_self, pyIsNotNone, Bool.false_and, Bool.false_eq_true, if_false,
      natMax_absorb]
  | some it0 =>
    cases h2 : alookup c.items it0.id with
    | some ex =>
      cases hcond : (pyIsNotNone it0.value && pyIsList it0.value && !c.isTable) with
      | false =>
        simp [Category.setItem, h, Category.setItemObj, hcond, h2, natMax_absorb]
      | true =>
        simp [Category.setItem, h, Category.setItemObj, hcond, h2, natMax_absorb]
    | none =>
      have hne : it0.id ≠ s := by
        intro e
        rw [e, h] at h2
        exact Option.noConfusion h2
      cases hcond : (pyIsNotNone it0.value && pyIsList it0.value && !c.isTable) with
      | false =>
        simp [Category.setItem, h, Category.setItemObj, hcond, h2, natMax_absorb,
          alookup_aset_self, alookup_aset_ne _ _ _ _ hne]
      | true =>
        simp [Category.setItem, h, Category.setItemObj, hcond, h2, natMax_absorb,
          alookup_aset_self, alookup_aset_ne _ _ _ _ hne]

theorem dropWhile_self {α : Type} (p : α → Bool) (l : List α) :
    List.dropWhile p (List.dropWhile p l) = List.dropWhile p l := by
  induction l with
  | nil => simp
  | cons a l ih =>
    by_cases h : p a
    · simp [List.dropWhile_cons, h, ih]
    · simp [List.dropWhile_cons, h]

theorem lstripU_idem (s : String) : lstripU (lstripU s) = lstripU s := by
  simp [lstripU, dropWhile_self]

theorem dbSetCategory_idem_name (db : DataBlockS) (s : String) :
    (DataBlock.setCategory db (SetArg.name s)).bind
        (fun p => DataBlock.setCategory p.2 (SetArg.name s))
      = DataBlock.setCategory db (SetArg.name s) := by
  cases h : alookup db.categories (lstripU s) with
  | none =>
    simp [DataBlock.setCategory, h, DataBlock.setCatFinish, Category.mkInit,
      lstripU_idem, alookup_aset_self]
  | some ex =>
    cases h2 : alookup db.categories ex.id with
    | some ex2 =>
      simp [DataBlock.setCategory, h, DataBlock.setCatFinish, h2]
    | none =>
      have hne : ex.id ≠ lstripU s := by
        intro e
        rw [e, h] at h2
        exact Option.noConfusion h2
      simp [DataBlock.setCategory, h, DataBlock.setCatFinish, h2,
        alookup_aset_self, alookup_aset_ne _ _ _ _ hne]

theorem sfSetCategory_idem_name (sf : SaveFrameS) (s : String) :
    (SaveFrame.setCategory sf (SetArg.name s)).bind
        (fun p => SaveFrame.setCategory p.2 (SetArg.name s))
      = SaveFrame.setCategory sf (SetArg.name s) := by
  cases h : alookup sf.categories (lstripU s) with
  | none =>
    simp [SaveFrame.setCategory, h, SaveFrame.setCatFinish, Category.mkInit,
      lstripU_idem, alookup_aset_self]
  | some ex =>
    cases h2 : alookup sf.categories ex.id with
    | some ex2 =>
      simp [SaveFrame.setCategory, h, SaveFrame.setCatFinish, h2]
    | none =>
      have hne : ex.id ≠ lstripU s := by
        intro e
        rw [e, h] at h2
        exact Option.noConfusion h2
      simp [SaveFrame.setCategory, h, SaveFrame.setCatFinish, h2,
        alookup_aset_self, alookup_aset_ne _ _ _ _ hne]

theorem setSaveFrame_idem_name (db : DataBlockS) (s : String) :
    (DataBlock.setSaveFrame db (SetArg.name s)).bind
        (fun p => DataBlock.setSaveFrame p.2 (SetArg.name s))
      = DataBlock.setSaveFrame db (SetArg.name s) := by
  cases h : alookup db.saveFrames s with
  | none =>
    simp [DataBlock.setSaveFrame, h, DataBlock.setFrameFinish, SaveFrame.mkInit,
      alookup_aset_self]
  | some ex =>
    cases h2 : alookup db.saveFrames ex.id with
    | some ex2 =>
      simp [DataBlock.setSaveFrame, h, DataBlock.setFrameFinish, h2]
    | none =>
      have hne : ex.id ≠ s := by
        intro e
        rw [e, h] at h2
        exact Option.noConfusion h2
      simp [DataBlock.setSaveFrame, h, DataBlock.setFrameFinish, h2,
        alookup_aset_self, alookup_aset_ne _ _ _ _ hne]

theorem setDataBlock_idem_name (cf : CifFileS) (s : String) :
    (CifFile.setDataBlock cf (SetArg.name s)).bind
        (fun p => CifFile.setDataBlock p.2 (SetArg.name s))
      = CifFile.setDataBlock cf (SetArg.name s) := by
  cases h : alookup cf.data_blocks s with
  | none =>
    simp [CifFile.setDataBlock, h, CifFile.setBlockFinish, DataBlock.mkInit,
      alookup_aset_self]
  | some ex =>
    cases h2 : alookup cf.data_blocks ex.id with
    | some ex2 =>
      simp [CifFile.setDataBlock, h, CifFile.setBlockFinish, h2]
    | none =>
      have hne : ex.id ≠ s := by
        intro e
        rw [e, h] at h2
        exact Option.noConfusion h2
      simp [CifFile.setDataBlock, h, CifFile.setBlockFinish, h2,
        alookup_aset_self, alookup_aset_ne _ _ _ _ hne]

theorem runSetValues_column (rest : List PyVal) :
    ∀ (it : ItemS) (b : Bool) (vs ts ls : List PyVal),
      it.value = PyVal.pylist vs → it.type = PyVal.pylist ts →
      it.lineno = PyVal.pylist ls → it.isColumn = true →
      runSetValues (it, b) rest
        = some ({ it with
                    value := PyVal.pylist (vs ++ rest)
                    type := PyVal.pylist
                      (ts ++ List.replicate rest.length (PyVal.pystr "DEFAULTSTRING"))
                    lineno := PyVal.pylist
                      (ls ++ List.replicate rest.length (PyVal.pyint (-1))) }, b) := by
  induction rest with
  | nil =>
    intro it b vs ts ls hv ht hl hc
    cases it
    simp_all [runSetValues]
  | cons v rest ih =>
    intro it b vs ts ls hv ht hl hc
    simp only [runSetValues, Item.setValueP, hv, ht, hl, hc]
    rw [ih { value := PyVal.pylist (vs ++ [v])
             type := PyVal.pylist (ts ++ [PyVal.pystr "DEFAULTSTRING"])
             mandatory := it.mandatory, isColumn := true, id := it.id, name := it.name
             lineno := PyVal.pylist (ls ++ [PyVal.pyint (-1)]) } b (vs ++ [v])
        (ts ++ [PyVal.pystr "DEFAULTSTRING"]) (ls ++ [PyVal.pyint (-1)]) rfl rfl rfl rfl]
    simp [List.append_assoc, List.replicate_succ]

/-- Claim C1 (corrected): for every sequence of two or more `setValue` calls
each passing a non-null scalar (non-list, non-`None`) value to a fresh `Item`,
the item ends with `isColumn = true`, `getRawValue()` is the ordered list of
all passed values in call order, and the `isTable` flag of the owning
category is set.  (The original claim, quantifying over all scalar values, fails when the
first value is `None`: see the counterexample.) -/
theorem claim_C1 (nm : String) (vs : List PyVal)
    (hlen : 2 ≤ vs.length)
    (hsc : ∀ v ∈ vs, pyIsList v = false ∧ v ≠ PyVal.pynone) :
    ∃ it2, runSetValues (Item.mkInit nm, false) vs = some (it2, true)
      ∧ it2.isColumn = true ∧ Item.getRawValue it2 = PyVal.pylist vs := by
  cases vs with
  | nil => simp at hlen
  | cons v1 vs1 =>
    cases vs1 with
    | nil => simp at hlen
    | cons v2 rest =>
      obtain ⟨h1l, h1n⟩ := hsc v1 (by simp)
      have step12 : runSetValues (Item.mkInit nm, false) (v1 :: v2 :: rest)
          = runSetValues
              ({ value := PyVal.pylist [v1, v2]
                 type := PyVal.pylist [PyVal.pystr "DEFAULTSTRING", PyVal.pystr "DEFAULTSTRING"]
                 mandatory := false, isColumn := true, id := nm, name := nm
                 lineno := PyVal.pylist [PyVal.pyint (-1), PyVal.pyint (-1)] }, true) rest := by
        cases v1 <;> simp_all [runSetValues, Item.setValueP, Item.mkInit, pyIsList]
      rw [step12,
        runSetValues_column rest
          { value := PyVal.pylist [v1, v2]
            type := PyVal.pylist [PyVal.pystr "DEFAULTSTRING", PyVal.pystr "DEFAULTSTRING"]
            mandatory := false, isColumn := true, id := nm, name := nm
            lineno := PyVal.pylist [PyVal.pyint (-1), PyVal.pyint (-1)] } true
          [v1, v2] [PyVal.pystr "DEFAULTSTRING", PyVal.pystr "DEFAULTSTRING"]
          [PyVal.pyint (-1), PyVal.pyint (-1)] rfl rfl rfl rfl]
      exact ⟨_, rfl, rfl, by simp [Item.getRawValue]⟩

theorem setValueP_promote (it : ItemS) (b : Bool) (v t l : PyVal)
    (hc : it.isColumn = false) (hv : it.value ≠ PyVal.pynone) :
    Item.setValueP (it, b) v t l
      = some ({ it with value := PyVal.pylist [it.value, v]
                        type := PyVal.pylist [it.type, t]
                        lineno := PyVal.pylist [it.lineno, l]
                        isColumn := true }, true) := by
  cases hval : it.value <;> simp_all [Item.setValueP]

theorem setValueP_append (it : ItemS) (b : Bool) (v t l : PyVal) (vs ts ls : List PyVal)
    (hc : it.isColumn = true) (hv : it.value = PyVal.pylist vs)
    (ht : it.type = PyVal.pylist ts) (hl : it.lineno = PyVal.pylist ls) :
    Item.setValueP (it, b) v t l
      = some ({ it with value := PyVal.pylist (vs ++ [v])
                        type := PyVal.pylist (ts ++ [t])
                        lineno := PyVal.pylist (ls ++ [l]) }, b) := by
  simp [Item.setValueP, hv, ht, hl, hc]

/-- Claim C2 (corrected): an `Item` that is about to be promoted from the
scalar state (isColumn false, value not `None`), or that is in the column
state with `value`, `type` and `lineno` lists of equal length — the state the
scalar-promotion path establishes — is carried by any `setValue` call into a
column state satisfying the equal-length invariant.  (The original claim also
covered the column state entered by a first call with a multi-element list;
there `type` and `lineno` stay scalars, so the invariant fails — see the
counterexample.) -/
theorem claim_C2 (it : ItemS) (b : Bool) (v t l : PyVal)
    (h : (it.isColumn = false ∧ it.value ≠ PyVal.pynone) ∨
         (it.isColumn = true ∧ eqLenCol it)) :
    ∃ it2 b2, Item.setValueP (it, b) v t l = some (it2, b2)
      ∧ it2.isColumn = true ∧ eqLenCol it2 := by
  rcases h with ⟨hc, hv⟩ | ⟨hc, vs, ts, ls, hv, ht, hl, hts, hls⟩
  · rw [setValueP_promote it b v t l hc hv]
    exact ⟨_, _, rfl, rfl,
      ⟨[it.value, v], [it.type, t], [it.lineno, l], rfl, rfl, rfl, rfl, rfl⟩⟩
  · rw [setValueP_append it b v t l vs ts ls hc hv ht hl]
    exact ⟨_, _, rfl, hc,
      ⟨vs ++ [v], ts ++ [t], ls ++ [l], rfl, rfl, rfl, by simp [hts], by simp [hls]⟩⟩

theorem catRemove_obj (c : CategoryS) (X : ItemS) (c1 : CategoryS)
    (hnd : keysNodup c.items) (hwf : ∀ e ∈ c.items, e.2.id = e.1)
    (h : Category.removeChild c (Sum.inl X) = (true, c1)) :
    X.id ∉ Category.getItemNames c1
      ∧ (∀ it ∈ Category.getItems c1, it.id ≠ X.id)
      ∧ amem c1.recycleBin X.id = true
      ∧ Category.removeChild c1 (Sum.inl X) = (false, c1)
      ∧ Category.removeChild c1 (Sum.inr X.id) = (false, c1) := by
  simp only [Category.removeChild] at h
  cases hl : alookup c.items X.id with
  | none => rw [hl] at h; simp at h
  | some v =>
    rw [hl] at h
    simp only [Prod.mk.injEq, true_and] at h
    subst h
    refine ⟨?_, ?_, ?_, ?_, ?_⟩
    · simpa [Category.getItemNames] using not_mem_map_fst_aerase c.items X.id hnd
    · intro it hit
      simp only [Category.getItems] at hit
      obtain ⟨e, he, rfl⟩ := List.mem_map.mp hit
      obtain ⟨hem, hne⟩ := mem_aerase c.items X.id e hnd he
      rw [hwf e hem]; exact hne
    · exact amem_aset_self _ _ _
    · simp [Category.removeChild, alookup_aerase_self c.items X.id hnd]
    · simp [Category.removeChild, alookup_aerase_self c.items X.id hnd]

theorem catRemove_name (c : CategoryS) (nm : String) (c1 : CategoryS)
    (hnd : keysNodup c.items)
    (h : Category.removeChild c (Sum.inr nm) = (true, c1)) :
    nm ∉ Category.getItemNames c1
      ∧ amem c1.recycleBin nm = true
      ∧ Category.removeChild c1 (Sum.inr nm) = (false, c1) := by
  simp only [Category.removeChild] at h
  cases hl : alookup c.items nm with
  | none => rw [hl] at h; simp at h
  | some v =>
    rw [hl] at h
    simp only [Prod.mk.injEq, true_and] at h
    subst h
    refine ⟨?_, ?_, ?_⟩
    · simpa [Category.getItemNames] using not_mem_map_fst_aerase c.items nm hnd
    · exact amem_aset_self _ _ _
    · simp [Category.removeChild, alookup_aerase_self c.items nm hnd]

theorem cifRemove_obj (cf : CifFileS) (X : DataBlockS) (cf1 : CifFileS)
    (hnd : keysNodup cf.data_blocks) (hwf : ∀ e ∈ cf.data_blocks, e.2.id = e.1)
    (h : CifFile.removeChild cf (Sum.inl X) = (true, cf1)) :
    X.id ∉ CifFile.getDataBlockIds cf1
      ∧ (∀ db ∈ cf1.data_blocks.map Prod.snd, db.id ≠ X.id)
      ∧ amem cf1.recycleBin X.id = true
      ∧ CifFile.removeChild cf1 (Sum.inl X) = (false, cf1)
      ∧ CifFile.removeChild cf1 (Sum.inr X.id) = (false, cf1) := by
  simp only [CifFile.removeChild] at h
  cases hl : alookup cf.data_blocks X.id with
  | none => rw [hl] at h; simp at h
  | some v =>
    rw [hl] at h
    simp only [Prod.mk.injEq, true_and] at h
    subst h
    refine ⟨?_, ?_, ?_, ?_, ?_⟩
    · simpa [CifFile.getDataBlockIds] using not_mem_map_fst_aerase cf.data_blocks X.id hnd
    · intro db hdb
      obtain ⟨e, he, rfl⟩ := List.mem_map.mp hdb
      obtain ⟨hem, hne⟩ := mem_aerase cf.data_blocks X.id e hnd he
      rw [hwf e hem]; exact hne
    · exact amem_aset_self _ _ _
    · simp [CifFile.removeChild, alookup_aerase_self cf.data_blocks X.id hnd]
    · simp [CifFile.removeChild, alookup_aerase_self cf.data_blocks X.id hnd]

theorem cifRemove_name (cf : CifFileS) (nm : String) (cf1 : CifFileS)
    (hnd : keysNodup cf.data_blocks)
    (h : CifFile.removeChild cf (Sum.inr nm) = (true, cf1)) :
    nm ∉ CifFile.getDataBlockIds cf1
      ∧ amem cf1.recycleBin nm = true
      ∧ CifFile.removeChild cf1 (Sum.inr nm) = (false, cf1) := by
  simp only [CifFile.removeChild] at h
  cases hl : alookup cf.data_blocks nm with
  | none => rw [hl] at h; simp at h
  | some v =>
    rw [hl] at h
    simp only [Prod.mk.injEq, true_and] at h
    subst h
    refine ⟨?_, ?_, ?_⟩
    · simpa [CifFile.getDataBlockIds] using not_mem_map_fst_aerase cf.data_blocks nm hnd
    · exact amem_aset_self _ _ _
    · simp [CifFile.removeChild, alookup_aerase_self cf.data_blocks nm hnd]

/-- Claim C10 (confirmed): when `DataBlock.removeChild` receives a string
present both among the categories (after stripping leading underscores) and
among the save frames, only the category is moved to the recycle bin, the
call returns `True`, and the save frame of the same name stays in the live
map. -/
theorem claim_C10 (db : DataBlockS) (s : String) (c0 : CategoryS)
    (f0 : SaveFrameS)
    (hc : alookup db.categories (lstripU s) = some c0)
    (hf : alookup db.saveFrames s = some f0) :
    DataBlock.removeChild db (DBArg.name s)
      = (true, { db with categories := aeraseKey db.categories (lstripU s)
                         recycleBin := aset db.recycleBin (lstripU s) (DBChild.cat c0) })
      ∧ alookup (DataBlock.removeChild db (DBArg.name s)).2.saveFrames s = some f0 := by
  have hm : amem db.categories (lstripU s) = true := by simp [amem, hc]
  constructor
  · simp [DataBlock.removeChild, hm, hc]
  · simp [DataBlock.removeChild, hm, hc, hf]

/-- Claim C4 (corrected): passing an `Item` object whose `id` is already a
live key to `Category.setItem` returns the currently registered child and
leaves the live map untouched (the argument object is discarded).  (The
original claim spoke of a freshly constructed child: constructing the fresh
`Item` with this category as parent already overwrites the registered child
inside `Item.__init__`, so the previously registered child neither stays nor
is returned — see the counterexample.) -/
theorem claim_C4 (c : CategoryS) (it old : ItemS)
    (h : alookup c.items it.id = some old) :
    (Category.setItem c (SetArg.child it)).1 = some old
      ∧ (Category.setItem c (SetArg.child it)).2.items = c.items := by
  cases hcond : (pyIsNotNone it.value && pyIsList it.value && !c.isTable) with
  | false => constructor <;> simp [Category.setItem, Category.setItemObj, h, hcond]
  | true => constructor <;> simp [Category.setItem, Category.setItemObj, h, hcond]

theorem blocksLoop_nondict_first (cf : CifFileS) (bid : String) (bv : PyVal)
    (rest : List (String × PyVal)) (hbv : pyIsDict bv = false) :
    CifFile.import_mmcif_data_map cf (PyVal.pydict ((bid, bv) :: rest)) = none := by
  simp only [CifFile.import_mmcif_data_map]
  cases hsb : CifFile.setDataBlock cf (SetArg.name bid) with
  | none => simp [blocksLoop, hsb]
  | some p =>
    obtain ⟨db, cf1⟩ := p
    cases bv <;> simp_all [blocksLoop, pyIsDict]

theorem beq_dq_sq : (dqc == sqc) = false := by decide

theorem beq_sq_dq : (sqc == dqc) = false := by decide

theorem beq_dq_nl : (dqc == nlc) = false := by decide

theorem beq_sq_nl : (sqc == nlc) = false := by decide

theorem chas_append (c : Char) (a b : List Char) :
    chas c (a ++ b) = (chas c a || chas c b) := by
  induction a with
  | nil => simp [chas]
  | cons x r ih => simp [chas, ih, Bool.or_assoc]

theorem dropLast_append_singleton {α : Type} (l : List α) (a : α) :
    (l ++ [a]).dropLast = l := by
  simp

theorem dropLast_cons_append_singleton {α : Type} (c : α) (r : List α) (a : α) :
    (c :: (r ++ [a])).dropLast = c :: r := by
  rw [← List.cons_append, dropLast_append_singleton]

theorem formatCore_newline (l : List Char) (h : chas nlc l = true) :
    formatCore l = some (nlc :: ';' :: l ++ [nlc, ';', nlc]) := by
  cases l with
  | nil => simp [chas] at h
  | cons c0 r =>
    by_cases hsq : chas sqc (c0 :: r) = true <;>
      by_cases hdq : chas dqc (c0 :: r) = true <;>
        by_cases hw : pyWrapCond (c0 :: r) = true <;>
          simp_all [formatCore, quoteWrap, chas_append, chas, pyInterior,
            dropLast_append_singleton, dropLast_cons_append_singleton, startsWithC,
            beq_dq_sq, beq_sq_dq, beq_dq_nl, beq_sq_nl]

theorem formatCore_sq_only (l : List Char) (hnl : chas nlc l = false)
    (hsq : chas sqc l = true) (hdq : chas dqc l = false) :
    formatCore l = some (quoteWrap dqc l) := by
  by_cases hw : pyWrapCond l = true <;>
    simp_all [formatCore, quoteWrap, chas_append, chas, pyInterior,
      dropLast_append_singleton, startsWithC, beq_dq_sq, beq_sq_dq,
      beq_dq_nl, beq_sq_nl]

theorem formatCore_dq_only (l : List Char) (hnl : chas nlc l = false)
    (hsq : chas sqc l = false) (hdq : chas dqc l = true) :
    formatCore l = some (quoteWrap sqc l) := by
  by_cases hw : pyWrapCond l = true <;>
    simp_all [formatCore, quoteWrap, chas_append, chas, pyInterior,
      dropLast_append_singleton, startsWithC, beq_dq_sq, beq_sq_dq,
      beq_dq_nl, beq_sq_nl]

theorem formatCore_mixed (l : List Char) (hnl : chas nlc l = false)
    (hsq : chas sqc l = true) (hdq : chas dqc l = true) :
    formatCore l = some (nlc :: ';' :: l ++ [nlc, ';', nlc]) := by
  by_cases hw : pyWrapCond l = true <;>
    simp_all [formatCore, quoteWrap, chas_append, chas, pyInterior,
      dropLast_append_singleton, dropLast_cons_append_singleton, startsWithC,
      beq_dq_sq, beq_sq_dq, beq_dq_nl, beq_sq_nl]

theorem formatCore_plain (l : List Char) (hne : l ≠ []) (hnl : chas nlc l = false)
    (hsq : chas sqc l = false) (hdq : chas dqc l = false) :
    formatCore l = some (if pyWrapCond l then quoteWrap dqc l else l) := by
  cases l with
  | nil => exact absurd rfl hne
  | cons c0 r =>
    by_cases hw : pyWrapCond (c0 :: r) = true <;>
      simp_all [formatCore, quoteWrap, chas_append, chas, pyInterior,
        dropLast_append_singleton, dropLast_cons_append_singleton, startsWithC,
        beq_dq_sq, beq_sq_dq, beq_dq_nl, beq_sq_nl]

/-- Counterexample to claim C1 as stated: the two scalar calls
`setValue(None)` then `setValue(5)` leave the item scalar — `isColumn` and the
`isTable` flag of the owning category stay `false` and the raw value is `5`,
not the
two-element column the claim requires (a first call with `None` re-enters the
empty state because `setValue` tests `self.value is None`). -/
theorem claim_C1_counterexample :
    (runSetValues (Item.mkInit "x", false) [PyVal.pynone, PyVal.pyint 5]).map
      (fun p => (p.1.isColumn, p.2, Item.getRawValue p.1))
      = some (false, false, PyVal.pyint 5) := rfl

/-- Witness for claim C1 at the concrete call sequence `"a"`, `"b"`. -/
theorem claim_C1_witness :
    ∃ it2, runSetValues (Item.mkInit "x", false) [PyVal.pystr "a", PyVal.pystr "b"]
        = some (it2, true)
      ∧ it2.isColumn = true
      ∧ Item.getRawValue it2 = PyVal.pylist [PyVal.pystr "a", PyVal.pystr "b"] :=
  claim_C1 "x" [PyVal.pystr "a", PyVal.pystr "b"] (by decide)
    (by
      intro v hv
      simp only [List.mem_cons, List.not_mem_nil, or_false] at hv
      rcases hv with rfl | rfl <;> simp [pyIsList])

/-- Counterexample to claim C2 as stated: a first `setValue` call with the
two-element list `[1, 2]` puts the item in the column state with `value` a
list but `type` and `lineno` still scalars (the class `str` and `-1`), so the
equal-length-sequences invariant fails; the next `setValue` call then raises
`AttributeError` (`self.type.append`), modelled as `none`. -/
theorem claim_C2_counterexample :
    (Item.setValueP (Item.mkInit "x", false)
        (PyVal.pylist [PyVal.pyint 1, PyVal.pyint 2]) (PyVal.pystr "DEFAULTSTRING")
        (PyVal.pyint (-1))).map
      (fun p => (p.1.isColumn, pyIsList p.1.type, pyIsList p.1.lineno))
      = some (true, false, false)
    ∧ (Item.setValueP (Item.mkInit "x", false)
        (PyVal.pylist [PyVal.pyint 1, PyVal.pyint 2]) (PyVal.pystr "DEFAULTSTRING")
        (PyVal.pyint (-1))).bind
        (fun p => Item.setValueP p (PyVal.pyint 3) (PyVal.pystr "DEFAULTSTRING")
          (PyVal.pyint (-1)))
      = none := ⟨rfl, rfl⟩

/-- Witness for claim C2: promoting the scalar item `1` with a second value. -/
theorem claim_C2_witness :
    ∃ it2 b2, Item.setValueP ({ Item.mkInit "x" with value := PyVal.pyint 1 }, false)
        (PyVal.pyint 2) (PyVal.pystr "T") (PyVal.pyint 7) = some (it2, b2)
      ∧ it2.isColumn = true ∧ eqLenCol it2 :=
  claim_C2 { Item.mkInit "x" with value := PyVal.pyint 1 } false
    (PyVal.pyint 2) (PyVal.pystr "T") (PyVal.pyint 7)
    (Or.inl ⟨rfl, by simp⟩)

/-- Claim C3 (confirmed): every construct-or-fetch operation (`setItem`,
`setCategory` on `DataBlock` and on `SaveFrame`, `setSaveFrame`,
`setDataBlock`) is idempotent on a name: the second call with the same name
returns the same child and the same container state as the first, so the
live-map size is unchanged by the second call (stated explicitly for
`setItem`). -/
theorem claim_C3 :
    (∀ (c : CategoryS) (s : String),
        Category.setItem (Category.setItem c (SetArg.name s)).2 (SetArg.name s)
          = Category.setItem c (SetArg.name s))
    ∧ (∀ (c : CategoryS) (s : String),
        (Category.setItem (Category.setItem c (SetArg.name s)).2 (SetArg.name s)).2.items.length
          = (Category.setItem c (SetArg.name s)).2.items.length)
    ∧ (∀ (db : DataBlockS) (s : String),
        (DataBlock.setCategory db (SetArg.name s)).bind
            (fun p => DataBlock.setCategory p.2 (SetArg.name s))
          = DataBlock.setCategory db (SetArg.name s))
    ∧ (∀ (sf : SaveFrameS) (s : String),
        (SaveFrame.setCategory sf (SetArg.name s)).bind
            (fun p => SaveFrame.setCategory p.2 (SetArg.name s))
          = SaveFrame.setCategory sf (SetArg.name s))
    ∧ (∀ (db : DataBlockS) (s : String),
        (DataBlock.setSaveFrame db (SetArg.name s)).bind
            (fun p => DataBlock.setSaveFrame p.2 (SetArg.name s))
          = DataBlock.setSaveFrame db (SetArg.name s))
    ∧ (∀ (cf : CifFileS) (s : String),
        (CifFile.setDataBlock cf (SetArg.name s)).bind
            (fun p => CifFile.setDataBlock p.2 (SetArg.name s))
          = CifFile.setDataBlock cf (SetArg.name s)) :=
  ⟨setItem_idem_name,
   fun c s => by rw [setItem_idem_name],
   dbSetCategory_idem_name, sfSetCategory_idem_name,
   setSaveFrame_idem_name, setDataBlock_idem_name⟩

/-- Counterexample to claim C4 as stated: freshly constructing `Item("a", C)`
on a category `C` that already registers `"a"` (value `7`) overwrites the
registered child at construction time, and the following `setItem` call
returns the fresh object (value `None`), with the live map now holding only
the fresh object — the previously registered child is neither returned nor
kept, and the fresh object is not discarded. -/
theorem claim_C4_counterexample :
    ((Category.setItem (Category.newItem catC4 "a").2
        (SetArg.child (Category.newItem catC4 "a").1)).1).map (fun it => it.value)
      = some PyVal.pynone
    ∧ ((Category.setItem (Category.newItem catC4 "a").2
        (SetArg.child (Category.newItem catC4 "a").1)).2).items.map
          (fun e => (e.1, e.2.value))
      = [("a", PyVal.pynone)] := ⟨rfl, rfl⟩

/-- Witness for claim C4: an item object carrying the registered id `"a"`
(built elsewhere) is discarded by `setItem`, which returns the registered
child and leaves the live map untouched. -/
theorem claim_C4_witness :
    (Category.setItem catC4
        (SetArg.child { Item.mkInit "a" with value := PyVal.pystr "fresh" })).1
      = some oldItemC4
    ∧ (Category.setItem catC4
        (SetArg.child { Item.mkInit "a" with value := PyVal.pystr "fresh" })).2.items
      = catC4.items :=
  claim_C4 catC4 { Item.mkInit "a" with value := PyVal.pystr "fresh" } oldItemC4 rfl

/-- Claim C5 (confirmed): on duplicate-free containers whose entries are keyed
by their id (every state a Python `dict` reaches), a successful `removeChild`
— by object or by name, on `Category` and on `CifFile` — leaves the id of
the child absent from the live enumeration, present in the recycle bin, and a
repeated removal with the same object or name returns `false` with the state
unchanged; `removeChild` is a total function, so no exception is ever
raised. -/
theorem claim_C5 :
    (∀ (c : CategoryS) (X : ItemS) (c1 : CategoryS),
        keysNodup c.items → (∀ e ∈ c.items, e.2.id = e.1) →
        Category.removeChild c (Sum.inl X) = (true, c1) →
        X.id ∉ Category.getItemNames c1
          ∧ (∀ it ∈ Category.getItems c1, it.id ≠ X.id)
          ∧ amem c1.recycleBin X.id = true
          ∧ Category.removeChild c1 (Sum.inl X) = (false, c1)
          ∧ Category.removeChild c1 (Sum.inr X.id) = (false, c1))
    ∧ (∀ (c : CategoryS) (nm : String) (c1 : CategoryS),
        keysNodup c.items →
        Category.removeChild c (Sum.inr nm) = (true, c1) →
        nm ∉ Category.getItemNames c1
          ∧ amem c1.recycleBin nm = true
          ∧ Category.removeChild c1 (Sum.inr nm) = (false, c1))
    ∧ (∀ (cf : CifFileS) (X : DataBlockS) (cf1 : CifFileS),
        keysNodup cf.data_blocks → (∀ e ∈ cf.data_blocks, e.2.id = e.1) →
        CifFile.removeChild cf (Sum.inl X) = (true, cf1) →
        X.id ∉ CifFile.getDataBlockIds cf1
          ∧ (∀ db ∈ cf1.data_blocks.map Prod.snd, db.id ≠ X.id)
          ∧ amem cf1.recycleBin X.id = true
          ∧ CifFile.removeChild cf1 (Sum.inl X) = (false, cf1)
          ∧ CifFile.removeChild cf1 (Sum.inr X.id) = (false, cf1))
    ∧ (∀ (cf : CifFileS) (nm : String) (cf1 : CifFileS),
        keysNodup cf.data_blocks →
        CifFile.removeChild cf (Sum.inr nm) = (true, cf1) →
        nm ∉ CifFile.getDataBlockIds cf1
          ∧ amem cf1.recycleBin nm = true
          ∧ CifFile.removeChild cf1 (Sum.inr nm) = (false, cf1)) :=
  ⟨catRemove_obj, catRemove_name, cifRemove_obj, cifRemove_name⟩

/-- Witness for claim C5 on concrete one-child containers, removing by object
and by name on both `Category` and `CifFile`. -/
theorem claim_C5_witness :
    (itemC5.id ∉ Category.getItemNames catC5r
      ∧ (∀ it ∈ Category.getItems catC5r, it.id ≠ itemC5.id)
      ∧ amem catC5r.recycleBin itemC5.id = true
      ∧ Category.removeChild catC5r (Sum.inl itemC5) = (false, catC5r)
      ∧ Category.removeChild catC5r (Sum.inr itemC5.id) = (false, catC5r))
    ∧ ("i" ∉ Category.getItemNames catC5r
      ∧ amem catC5r.recycleBin "i" = true
      ∧ Category.removeChild catC5r (Sum.inr "i") = (false, catC5r))
    ∧ (dbC5.id ∉ CifFile.getDataBlockIds cifC5r
      ∧ (∀ db ∈ cifC5r.data_blocks.map Prod.snd, db.id ≠ dbC5.id)
      ∧ amem cifC5r.recycleBin dbC5.id = true
      ∧ CifFile.removeChild cifC5r (Sum.inl dbC5) = (false, cifC5r)
      ∧ CifFile.removeChild cifC5r (Sum.inr dbC5.id) = (false, cifC5r))
    ∧ ("B" ∉ CifFile.getDataBlockIds cifC5r
      ∧ amem cifC5r.recycleBin "B" = true
      ∧ CifFile.removeChild cifC5r (Sum.inr "B") = (false, cifC5r)) :=
  ⟨claim_C5.1 catC5 itemC5 catC5r (by unfold keysNodup; decide) (by decide) rfl,
   claim_C5.2.1 catC5 "i" catC5r (by unfold keysNodup; decide) rfl,
   claim_C5.2.2.1 cifC5 dbC5 cifC5r (by unfold keysNodup; decide) (by decide) rfl,
   claim_C5.2.2.2 cifC5 "B" cifC5r (by unfold keysNodup; decide) rfl⟩

/-- Claim C6 (corrected): during `import_mmcif_data_map`, a category whose
value is not a mapping is reported and skipped and the import continues with
the remaining branches (partial success, shown concretely below), but a data
block whose value is not a mapping raises `AttributeError` at
`categories_items_and_values.items()` outside every `try`, aborting the
whole import (`none`) — contrary to the original claim, that branch is not
skipped. -/
theorem claim_C6 :
    (∀ (cf : CifFileS) (bid : String) (bv : PyVal) (rest : List (String × PyVal)),
        pyIsDict bv = false →
        CifFile.import_mmcif_data_map cf (PyVal.pydict ((bid, bv) :: rest)) = none)
    ∧ (CifFile.import_mmcif_data_map CifFile.mkInit
        (PyVal.pydict [("B", PyVal.pydict
          [("bad", PyVal.pyint 7),
           ("good", PyVal.pydict [("i", PyVal.pyint 5)])])])).map
      (fun cf =>
        (CifFile.getDataBlockIds cf,
         (alookup cf.data_blocks "B").map (fun db =>
           (DataBlock.getCategoryIds db,
            (alookup db.categories "good").map (fun c =>
              (Category.getItemNames c,
               (alookup c.items "i").map (fun it => it.value)))))))
      = some (["B"], some (["bad", "good"], some (["i"], some (PyVal.pyint 5)))) :=
  ⟨blocksLoop_nondict_first, rfl⟩

/-- Counterexample to claim C6 as stated: a malformed data-block branch
mapping the block id B to the non-mapping value 5 is not reported and
skipped — the import raises `AttributeError` (modelled as `none`) instead of
continuing. -/
theorem claim_C6_counterexample :
    CifFile.import_mmcif_data_map CifFile.mkInit (PyVal.pydict [("B", PyVal.pyint 5)])
      = none := rfl

/-- Witness for claim C6 at a concrete non-mapping data-block value. -/
theorem claim_C6_witness :
    CifFile.import_mmcif_data_map CifFile.mkInit
        (PyVal.pydict [("B", PyVal.pystr "oops")]) = none :=
  claim_C6.1 CifFile.mkInit "B" (PyVal.pystr "oops") [] rfl

/-- Claim C7 (corrected): on an argument that is neither a name string nor a
child object of the expected kind (no `isalnum`, no `id` — e.g. an integer),
`Category.setItem` alone returns `None` silently with the category unchanged;
`DataBlock.setCategory`, `SaveFrame.setCategory`, `DataBlock.setSaveFrame`
and `CifFile.setDataBlock` instead raise an uncaught `AttributeError`
(modelled as `none` of the `Option`-valued embedding) — contrary to the
original claim, those four do not return silently. -/
theorem claim_C7 :
    (∀ (c : CategoryS) (n : Int), Category.setItem c (SetArg.other n) = (none, c))
    ∧ (∀ (db : DataBlockS) (n : Int), DataBlock.setCategory db (SetArg.other n) = none)
    ∧ (∀ (sf : SaveFrameS) (n : Int), SaveFrame.setCategory sf (SetArg.other n) = none)
    ∧ (∀ (db : DataBlockS) (n : Int), DataBlock.setSaveFrame db (SetArg.other n) = none)
    ∧ (∀ (cf : CifFileS) (n : Int), CifFile.setDataBlock cf (SetArg.other n) = none) :=
  ⟨fun _ _ => rfl, fun _ _ => rfl, fun _ _ => rfl, fun _ _ => rfl, fun _ _ => rfl⟩

/-- Counterexample to claim C7 as stated: `CifFile.setDataBlock` on the
integer `5` does not silently yield a null result — `datablock.id` raises an
uncaught `AttributeError` (the `none` of the embedding, in contrast to
`Category.setItem`, whose embedding returns the Python value `None` as first
component without raising). -/
theorem claim_C7_counterexample :
    CifFile.setDataBlock CifFile.mkInit (SetArg.other 5) = none
    ∧ DataBlock.setCategory (DataBlock.mkInit "B") (SetArg.other 5) = none :=
  ⟨rfl, rfl⟩

/-- Claim C8 (corrected): for every non-empty value without a line break,
`_formatVal` double-quotes a value containing a single quote and no double
quote, single-quotes a value containing a double quote and no single quote,
renders a value containing both quote kinds as the semicolon-delimited block,
and wraps a quote-free value in double quotes exactly when it starts with
`_` or `[` or contains a space, emitting it bare otherwise; the four concrete
values of the claim behave as stated.  (The original claim is amended in
two points forced by the code: a value containing both a single and a double
quote becomes a semicolon block, not a double-quoted token, and the empty
string raises `IndexError` rather than being emitted bare.) -/
theorem claim_C8 :
    (∀ s : String, s.data ≠ [] → chas nlc s.data = false →
      ((chas sqc s.data = true → chas dqc s.data = false →
          _formatVal s = some (String.mk (quoteWrap dqc s.data)))
        ∧ (chas dqc s.data = true → chas sqc s.data = false →
          _formatVal s = some (String.mk (quoteWrap sqc s.data)))
        ∧ (chas sqc s.data = true → chas dqc s.data = true →
          _formatVal s = some (String.mk (nlc :: ';' :: s.data ++ [nlc, ';', nlc])))
        ∧ (chas sqc s.data = false → chas dqc s.data = false →
          _formatVal s = some (String.mk
            (if pyWrapCond s.data then quoteWrap dqc s.data else s.data)))))
    ∧ _formatVal "simple" = some "simple"
    ∧ _formatVal "has space" = some (dqS ++ "has space" ++ dqS)
    ∧ _formatVal ("it" ++ sqS ++ "s") = some (dqS ++ "it" ++ sqS ++ "s" ++ dqS)
    ∧ _formatVal ("she said " ++ dqS ++ "hi" ++ dqS)
        = some (sqS ++ "she said " ++ dqS ++ "hi" ++ dqS ++ sqS) := by
  refine ⟨fun s hne hnl => ⟨?_, ?_, ?_, ?_⟩, rfl, by decide, by decide, by decide⟩
  · intro h1 h2
    simp [_formatVal, formatCore_sq_only s.data hnl h1 h2]
  · intro h1 h2
    simp [_formatVal, formatCore_dq_only s.data hnl h2 h1]
  · intro h1 h2
    simp [_formatVal, formatCore_mixed s.data hnl h1 h2]
  · intro h1 h2
    simp [_formatVal, formatCore_plain s.data hne hnl h1 h2]

/-- Counterexample to claim C8 as stated: a line-break-free value holding a
single quote between a and b and a double quote between b and c contains a
single quote, but the formatter renders it as a semicolon-delimited block
(the final branch of `_formatVal` fires on the mixed-quote interior), not as
a double-quoted token. -/
theorem claim_C8_counterexample :
    _formatVal ("a" ++ sqS ++ "b" ++ dqS ++ "c")
        = some ("\n;a" ++ sqS ++ "b" ++ dqS ++ "c\n;\n")
    ∧ ("\n;a" ++ sqS ++ "b" ++ dqS ++ "c\n;\n"
        ≠ dqS ++ "a" ++ sqS ++ "b" ++ dqS ++ "c" ++ dqS) :=
  ⟨by decide, by decide⟩

/-- Witness for claim C8 at the concrete value carrying one single quote
between a and b. -/
theorem claim_C8_witness :
    _formatVal ("a" ++ sqS ++ "b")
      = some (String.mk (quoteWrap dqc ("a" ++ sqS ++ "b").data)) :=
  (claim_C8.1 ("a" ++ sqS ++ "b") (by decide) (by decide)).1 (by decide) (by decide)

/-- Claim C9 (corrected): for every value containing a line break the
formatter returns the semicolon-delimited block `\n;` + text + `\n;\n` with
the input text verbatim — pre-existing wrapping quotes are preserved inside
the block, not stripped (the quote layer stripped by the code is the one the
quoting stage itself just added); in particular `format("a\nb")` is the
5-line block of the claim. -/
theorem claim_C9 :
    (∀ s : String, chas nlc s.data = true →
      _formatVal s = some (String.mk (nlc :: ';' :: s.data ++ [nlc, ';', nlc])))
    ∧ _formatVal "a\nb" = some "\n;a\nb\n;\n" :=
  ⟨fun s h => by simp [_formatVal, formatCore_newline s.data h], by decide⟩

/-- Counterexample to claim C9 as stated: a multi-line value arriving
already wrapped in single quotes keeps those quotes inside the semicolon
block — the block contains the quoted text, not the stripped `a\nb` the
claim requires. -/
theorem claim_C9_counterexample :
    _formatVal (sqS ++ "a\nb" ++ sqS)
        = some ("\n;" ++ sqS ++ "a\nb" ++ sqS ++ "\n;\n")
    ∧ ("\n;" ++ sqS ++ "a\nb" ++ sqS ++ "\n;\n" ≠ "\n;a\nb\n;\n") :=
  ⟨by decide, by decide⟩

/-- Witness for claim C9 at the concrete multi-line value `x\ny`. -/
theorem claim_C9_witness :
    _formatVal "x\ny" = some (String.mk (nlc :: ';' :: "x\ny".data ++ [nlc, ';', nlc])) :=
  claim_C9.1 "x\ny" (by decide)

/-- Witness for claim C10 on `dbC10`: removing the string `"x"` pops only the
category; the save frame stays. -/
theorem claim_C10_witness :
    DataBlock.removeChild dbC10 (DBArg.name "x")
        = (true, { dbC10 with
                     categories := aeraseKey dbC10.categories (lstripU "x")
                     recycleBin := aset dbC10.recycleBin (lstripU "x")
                       (DBChild.cat (Category.mkInit "x")) })
      ∧ alookup (DataBlock.removeChild dbC10 (DBArg.name "x")).2.saveFrames "x"
        = some (SaveFrame.mkInit "x") :=
  claim_C10 dbC10 "x" (Category.mkInit "x") (SaveFrame.mkInit "x") rfl rfl
